import Mathlib

/-!
Shallow embedding of the invoice server actions in `src/app/lib/actions.ts`:
the Zod schema `FormSchema` (restricted by `omit` to the three mutable
fields), `createInvoice`, `updateInvoice` and `deleteInvoice`, together with
the external collaborators they touch (the SQL store, `revalidatePath`,
`redirect`).  JavaScript numbers are embedded as rationals with an explicit
NaN; the store is a list of rows; the nondeterministic environment (current
time, generated id, store or cache failures) is an explicit `Env` record.
-/

namespace Invoices

/-- A raw value as returned by `formData.get(name)`: a string when the field
was submitted, `null` when it is absent. -/
inductive FormValue where
  | str (s : String)
  | null
deriving DecidableEq, Repr

/-- A JavaScript number: NaN, or a value embedded as a rational. -/
inductive JSNum where
  | nan
  | val (q : ℚ)
deriving DecidableEq, Repr

/-- Value of a list of decimal digit characters. -/
def digitsVal (l : List Char) : ℕ :=
  l.foldl (fun n c => 10 * n + (c.toNat - 48)) 0

/-- Decimal-literal parsing in scaled-integer form: an optional sign, then
digits with an optional fractional part, as in `Number("12.5")`.  Returns
the signed digit value together with the number of fractional digits, or
`none` when the string is not such a literal. -/
def parseScaled? (cs : List Char) : Option (ℤ × ℕ) :=
  let signed : ℤ × List Char :=
    match cs with
    | '-' :: rest => (-1, rest)
    | '+' :: rest => (1, rest)
    | _ => (1, cs)
  let sign := signed.1
  let body := signed.2
  let intPart := body.takeWhile Char.isDigit
  let rest := body.dropWhile Char.isDigit
  match rest with
  | [] => if intPart.isEmpty then none else some (sign * digitsVal intPart, 0)
  | '.' :: frac =>
      if frac.all Char.isDigit && !(intPart.isEmpty && frac.isEmpty) then
        some (sign * (digitsVal intPart * 10 ^ frac.length + digitsVal frac), frac.length)
      else none
  | _ => none

/-- The rational value of a decimal literal: its scaled-integer value
divided by ten to the number of fractional digits. -/
def parseDecimal? (cs : List Char) : Option ℚ :=
  (parseScaled? cs).map (fun p => (p.1 : ℚ) / 10 ^ p.2)

/-- ASCII whitespace, as stripped by `Number` from both ends of its string
argument before parsing. -/
def isSpaceChar (c : Char) : Bool :=
  c == ' ' || c == '\t' || c == '\n' || c == '\r' || c == '\x0b' || c == '\x0c'

/-- Strip whitespace from both ends of a character list. -/
def trimChars (l : List Char) : List Char :=
  ((l.dropWhile isSpaceChar).reverse.dropWhile isSpaceChar).reverse

/-- The coercion `Number(x)` applied by `z.coerce.number()` to the raw form
value, on the inputs this code receives: `Number(null) = 0`, an empty or
all-whitespace string gives `0`, a plain decimal literal gives its value,
and any other string gives NaN (numeric syntaxes outside the modelled input
space, such as exponent or hexadecimal literals, are mapped to NaN). -/
def numberOf : FormValue → JSNum
  | .null => .val 0
  | .str s =>
      match trimChars s.toList with
      | [] => .val 0
      | t => match parseDecimal? t with
        | some q => .val q
        | none => .nan

/-- The `invalid_type_error` configured on `customerId` in `FormSchema`. -/
def customerIdMsg : String := "Please select a customer."

/-- The `.gt(0, ...)` message configured on `amount` in `FormSchema`. -/
def amountGtMsg : String := "Please enter an amount greater than $0."

/-- The `invalid_type_error` configured on `status` in `FormSchema`. -/
def statusMsg : String := "Please select an invoice status."

/-- Zod's default `invalid_type` message for `z.coerce.number()` when the
coerced value is NaN. -/
def amountNanMsg : String := "Expected number, received nan"

/-- Zod's default `invalid_enum_value` message for `z.enum(["pending",
"paid"])` when the input is a string outside the enumeration; the
`invalid_type_error` option only applies to non-string inputs. -/
def enumValueMsg (received : String) : String :=
  "Invalid enum value. Expected \x27pending\x27 | \x27paid\x27, received \x27"
    ++ received ++ "\x27"

/-- The field `customerId: z.string({ invalid_type_error: ... })`: a string
passes through, `null` is an `invalid_type` issue carrying the configured
message. -/
def validateCustomerId : FormValue → Except (List String) String
  | .str s => .ok s
  | .null => .error [customerIdMsg]

/-- The field `amount: z.coerce.number().gt(0, ...)`: the raw value is
coerced with `Number`, NaN is an `invalid_type` issue with Zod's default
message, and a coerced value not strictly greater than 0 fails the `gt`
check with the configured message. -/
def validateAmount (v : FormValue) : Except (List String) ℚ :=
  match numberOf v with
  | .nan => .error [amountNanMsg]
  | .val q => if 0 < q then .ok q else .error [amountGtMsg]

/-- The field `status: z.enum(["pending", "paid"], { invalid_type_error:
... })`: a non-string input is an `invalid_type` issue with the configured
message, a string outside the enumeration is an `invalid_enum_value` issue
with Zod's default message. -/
def validateStatus : FormValue → Except (List String) String
  | .null => .error [statusMsg]
  | .str s =>
      if s = "pending" ∨ s = "paid" then .ok s else .error [enumValueMsg s]

/-- The `errors.<field>` message list contributed by one field validator:
empty when the field parsed, its issue messages otherwise.  This is the
per-field shape produced by `error.flatten().fieldErrors`. -/
def errsOf {α : Type} : Except (List String) α → List String
  | .ok _ => []
  | .error msgs => msgs

/-- The value of `validatedFields.error.flatten().fieldErrors`: a mapping
from each schema field to the list of its violated-constraint messages. -/
structure FieldErrors where
  customerId : List String
  amount : List String
  status : List String
deriving DecidableEq, Repr

/-- The validated data of `CreateInvoice` / `UpdateInvoice` (the
`FormSchema` with `id` and `date` omitted). -/
structure ParsedInvoiceFields where
  customerId : String
  amount : ℚ
  status : String
deriving DecidableEq, Repr

/-- `CreateInvoice.safeParse` on the three raw field values: success with
the typed data when every field parses, otherwise the per-field error
mapping. -/
def CreateInvoice.safeParse (customerId amount status : FormValue) :
    Except FieldErrors ParsedInvoiceFields :=
  match validateCustomerId customerId, validateAmount amount, validateStatus status with
  | .ok c, .ok a, .ok s => .ok ⟨c, a, s⟩
  | rc, ra, rs => .error ⟨errsOf rc, errsOf ra, errsOf rs⟩

/-- `UpdateInvoice` is `FormSchema.omit({ id, date })`, the same field set
as `CreateInvoice`; its `.parse` validates identically (the difference —
raising instead of returning — lives in `updateInvoice` below). -/
def UpdateInvoice.parse (customerId amount status : FormValue) :
    Except FieldErrors ParsedInvoiceFields :=
  CreateInvoice.safeParse customerId amount status

/-- One row of the `invoices` table: columns `id, customer_id, amount,
status, date`. -/
structure InvoiceRow where
  id : String
  customer_id : String
  amount : ℚ
  status : String
  date : String
deriving DecidableEq, Repr

/-- The external world an action runs in: the current time as the ISO
string produced by `new Date().toISOString()`, the row id the store
generates on insert, and whether each external call (the three SQL
statements, `revalidatePath`) fails by throwing. -/
structure Env where
  nowISO : String
  freshId : String
  insertFails : Bool
  updateFails : Bool
  deleteFails : Bool
  revalidateFails : Bool
deriving DecidableEq, Repr

/-- The computation `new Date().toISOString().split("T")[0]`: the part of
the ISO timestamp before the first `T`, i.e. the current date in
`YYYY-MM-DD` form. -/
def isoDatePart (iso : String) : String :=
  String.mk (iso.toList.takeWhile (fun c => c != 'T'))

/-- `const amountInCents = amount * 100` as written in both `createInvoice`
and `updateInvoice` (no rounding is applied; the exact rational product
stands in for the source's double multiplication, which can differ from it
by a rounding error of the floating-point format). -/
def amountInCents (amount : ℚ) : ℚ := amount * 100

/-- How an action invocation ends: a returned `State`-shaped object, the
control-transfer signal thrown by `redirect(path)`, or an uncaught
exception propagating to the caller. -/
inductive Outcome where
  | ret (errors : Option FieldErrors) (message : Option String)
  | redirected (path : String)
  | threw
deriving DecidableEq, Repr

/-- Observable events of one invocation, in order: the SQL statement being
issued and its success or failure, a `revalidatePath(path)` call that
completed, and the `redirect(path)` signal being raised. -/
inductive Event where
  | dbWriteAttempt
  | dbWriteSuccess
  | dbWriteFailure
  | revalidate (path : String)
  | redirectSignal (path : String)
deriving DecidableEq, Repr

/-- Result of running one action: how it ended, the store contents after
it, and the event trace. -/
structure ActionResult where
  outcome : Outcome
  store : List InvoiceRow
  events : List Event
deriving DecidableEq, Repr

/-- `createInvoice(prevState, formData)`: safe-parse the three fields;  on
validation failure return the field errors with the fixed message;  on
success compute `amountInCents` and `date` and run the `INSERT` inside
`try/catch`, a store failure returning the database-error message;  then,
outside the `try/catch`, call `revalidatePath` and `redirect` (a failing
`revalidatePath` therefore propagates as an uncaught exception). -/
def createInvoice (env : Env) (store : List InvoiceRow)
    (customerId amount status : FormValue) : ActionResult :=
  match CreateInvoice.safeParse customerId amount status with
  | .error fieldErrors =>
      ⟨.ret (some fieldErrors) (some "Missing Fields. Failed to Create Invoice."),
        store, []⟩
  | .ok data =>
      let cents := amountInCents data.amount
      let date := isoDatePart env.nowISO
      if env.insertFails then
        ⟨.ret none (some "Database Error: Failed to Create Invoice. "),
          store, [.dbWriteAttempt, .dbWriteFailure]⟩
      else
        let store1 := store ++ [⟨env.freshId, data.customerId, cents, data.status, date⟩]
        if env.revalidateFails then
          ⟨.threw, store1, [.dbWriteAttempt, .dbWriteSuccess]⟩
        else
          ⟨.redirected "/dashboard/invoices", store1,
            [.dbWriteAttempt, .dbWriteSuccess, .revalidate "/dashboard/invoices",
              .redirectSignal "/dashboard/invoices"]⟩

/-- The effect of `UPDATE invoices SET customer_id = ..., amount = ...,
status = ... WHERE id = ...` on one row: a row whose `id` matches gets the
three new column values and keeps its `date`; any other row is unchanged. -/
def updateRow (id customerId : String) (cents : ℚ) (status : String)
    (r : InvoiceRow) : InvoiceRow :=
  if r.id = id then ⟨r.id, customerId, cents, status, r.date⟩ else r

/-- `updateInvoice(id, formData)`: parse the three fields with
`UpdateInvoice.parse`, which throws a ZodError on invalid input (no local
handling, so the invocation ends `threw` without touching the store);  on
success compute `amountInCents` and run the `UPDATE` inside `try/catch`, a
store failure returning the database-error message;  then, outside the
`try/catch`, call `revalidatePath` and `redirect`. -/
def updateInvoice (env : Env) (store : List InvoiceRow) (id : String)
    (customerId amount status : FormValue) : ActionResult :=
  match UpdateInvoice.parse customerId amount status with
  | .error _ => ⟨.threw, store, []⟩
  | .ok data =>
      let cents := amountInCents data.amount
      if env.updateFails then
        ⟨.ret none (some "Database Error: Failed to Update Invoice."),
          store, [.dbWriteAttempt, .dbWriteFailure]⟩
      else
        let store1 := store.map (updateRow id data.customerId cents data.status)
        if env.revalidateFails then
          ⟨.threw, store1, [.dbWriteAttempt, .dbWriteSuccess]⟩
        else
          ⟨.redirected "/dashboard/invoices", store1,
            [.dbWriteAttempt, .dbWriteSuccess, .revalidate "/dashboard/invoices",
              .redirectSignal "/dashboard/invoices"]⟩

/-- `deleteInvoice(id)`: run `DELETE FROM invoices WHERE id = ...`, then
`revalidatePath`, then return `{ message: "Deleted Invoice." }`, all inside
one `try/catch` whose handler returns the database-error message — so a
failure of either the delete or the revalidation yields that message, and a
delete that committed before a failing revalidation stays committed. -/
def deleteInvoice (env : Env) (store : List InvoiceRow) (id : String) :
    ActionResult :=
  if env.deleteFails then
    ⟨.ret none (some "Database Error: Failed to Delete Invoice."),
      store, [.dbWriteAttempt, .dbWriteFailure]⟩
  else
    let store1 := store.filter (fun r => r.id != id)
    if env.revalidateFails then
      ⟨.ret none (some "Database Error: Failed to Delete Invoice."),
        store1, [.dbWriteAttempt, .dbWriteSuccess]⟩
    else
      ⟨.ret none (some "Deleted Invoice."),
        store1, [.dbWriteAttempt, .dbWriteSuccess, .revalidate "/dashboard/invoices"]⟩

/-! Shared lemmas about the validators and concrete inputs used below. -/

/-- A valid triple — a string `customerId`, an `amount` coercing to a
strictly positive number, a `status` in the enumeration — safe-parses to
the typed data. -/
theorem safeParse_ok_valid (cid : String) (a : FormValue) (s : String) (q : ℚ)
    (hq : numberOf a = JSNum.val q) (hpos : 0 < q) (hs : s = "pending" ∨ s = "paid") :
    CreateInvoice.safeParse (.str cid) a (.str s) = .ok ⟨cid, q, s⟩ := by
  simp [CreateInvoice.safeParse, validateCustomerId, validateAmount, validateStatus,
    hq, hpos, hs]

/-- When the `status` field fails its validator, the whole safe-parse fails
and the error mapping carries every field's messages. -/
theorem safeParse_error_of_status (cv a st : FormValue) (msgs : List String)
    (hst : validateStatus st = .error msgs) :
    CreateInvoice.safeParse cv a st
      = .error ⟨errsOf (validateCustomerId cv), errsOf (validateAmount a), msgs⟩ := by
  unfold CreateInvoice.safeParse
  cases h1 : validateCustomerId cv <;> cases h2 : validateAmount a <;>
    simp [hst, errsOf]

/-- When the `amount` field fails its validator, the whole safe-parse fails
and the error mapping carries every field's messages. -/
theorem safeParse_error_of_amount (cv a st : FormValue) (msgs : List String)
    (ha : validateAmount a = .error msgs) :
    CreateInvoice.safeParse cv a st
      = .error ⟨errsOf (validateCustomerId cv), msgs, errsOf (validateStatus st)⟩ := by
  unfold CreateInvoice.safeParse
  cases h1 : validateCustomerId cv <;> cases h2 : validateStatus st <;>
    simp [ha, errsOf]

/-- When the `customerId` field fails its validator, the whole safe-parse
fails and the error mapping carries every field's messages. -/
theorem safeParse_error_of_customerId (cv a st : FormValue) (msgs : List String)
    (hc : validateCustomerId cv = .error msgs) :
    CreateInvoice.safeParse cv a st
      = .error ⟨msgs, errsOf (validateAmount a), errsOf (validateStatus st)⟩ := by
  unfold CreateInvoice.safeParse
  cases h1 : validateAmount a <;> cases h2 : validateStatus st <;>
    simp [hc, errsOf]

/-- The amount validator never fails with an empty message list. -/
theorem validateAmount_error_ne_nil (a : FormValue) (msgs : List String)
    (h : validateAmount a = .error msgs) : msgs ≠ [] := by
  unfold validateAmount at h
  cases hn : numberOf a with
  | nan =>
      rw [hn] at h
      simp at h
      simp [← h]
  | val q =>
      rw [hn] at h
      by_cases hq : 0 < q
      · simp [hq] at h
      · simp [hq] at h
        simp [← h]

/-- The status validator never fails with an empty message list. -/
theorem validateStatus_error_ne_nil (st : FormValue) (msgs : List String)
    (h : validateStatus st = .error msgs) : msgs ≠ [] := by
  unfold validateStatus at h
  rcases st with s | _
  · by_cases hs : s = "pending" ∨ s = "paid"
    · simp [hs] at h
    · simp [hs] at h
      simp [← h]
  · simp at h
    simp [← h]

/-- Evaluation of the coercion on the literal "25". -/
theorem numberOf_25 : numberOf (.str "25") = .val 25 := by
  have ht : trimChars ['2', '5'] = ['2', '5'] := by decide
  have hp : parseScaled? ['2', '5'] = some (25, 0) := by decide
  simp [numberOf, ht, parseDecimal?, hp]

/-- Evaluation of the coercion on the literal "0.001". -/
theorem numberOf_milli : numberOf (.str "0.001") = .val (1/1000) := by
  have ht : trimChars ['0', '.', '0', '0', '1'] = ['0', '.', '0', '0', '1'] := by decide
  have hp : parseScaled? ['0', '.', '0', '0', '1'] = some (1, 3) := by decide
  simp [numberOf, ht, parseDecimal?, hp]
  norm_num

/-- Evaluation of the coercion on the literal "0". -/
theorem numberOf_zero : numberOf (.str "0") = .val 0 := by
  have ht : trimChars ['0'] = ['0'] := by decide
  have hp : parseScaled? ['0'] = some (0, 0) := by decide
  simp [numberOf, ht, parseDecimal?, hp]

/-- Evaluation of the coercion on the literal "7". -/
theorem numberOf_7 : numberOf (.str "7") = .val 7 := by
  have ht : trimChars ['7'] = ['7'] := by decide
  have hp : parseScaled? ['7'] = some (7, 0) := by decide
  simp [numberOf, ht, parseDecimal?, hp]

/-- An environment where every external call succeeds. -/
def envOK : Env := ⟨"2024-05-01T12:00:00.000Z", "id1", false, false, false, false⟩

/-- An environment where the `INSERT` statement fails. -/
def envInsErr : Env := ⟨"2024-05-01T12:00:00.000Z", "id1", true, false, false, false⟩

/-- An environment where the `UPDATE` statement fails. -/
def envUpdErr : Env := ⟨"2024-05-01T12:00:00.000Z", "id1", false, true, false, false⟩

/-- An environment where the `DELETE` statement fails. -/
def envDelErr : Env := ⟨"2024-05-01T12:00:00.000Z", "id1", false, false, true, false⟩

/-- An environment where only `revalidatePath` fails. -/
def envRevErr : Env := ⟨"2024-05-01T12:00:00.000Z", "id1", false, false, false, true⟩

/-- C1 counterexample: on the valid input amount = "0.001" (coerced value
1/1000, strictly positive) with a working store, `createInvoice` inserts
the unrounded amount 1/1000 * 100 = 1/10, whereas round(amount * 100)
is 0 — so the stored amount does not equal round(amount * 100). -/
theorem createInvoice_not_rounded_cex :
    (createInvoice envOK [] (.str "c1") (.str "0.001") (.str "pending")).store.map
        InvoiceRow.amount = [1/10] ∧
    ((round ((1/1000 : ℚ) * 100) : ℤ) : ℚ) ≠ 1/10 := by
  constructor
  · simp [createInvoice,
      safeParse_ok_valid "c1" (.str "0.001") "pending" (1/1000) numberOf_milli
        (by norm_num) (Or.inl rfl),
      envOK, amountInCents]
    norm_num
  · have h : ((1/1000 : ℚ) * 100) = 1/10 := by norm_num
    rw [h, round_eq]
    norm_num

/-- C1 (amended): for every input where customerId is a string, the coerced
amount is strictly greater than 0 and status is "pending" or "paid", when
the INSERT and the revalidation succeed `createInvoice` appends exactly one
new row whose stored amount equals amount * 100 exactly as coerced (no
rounding) and whose date is the date part of the current ISO timestamp
(YYYY-MM-DD), and then signals a redirect to /dashboard/invoices. -/
theorem createInvoice_valid_inserts_and_redirects
    (env : Env) (store : List InvoiceRow) (cid : String) (a : FormValue) (s : String)
    (q : ℚ) (hq : numberOf a = JSNum.val q) (hpos : 0 < q)
    (hs : s = "pending" ∨ s = "paid")
    (hins : env.insertFails = false) (hrev : env.revalidateFails = false) :
    (createInvoice env store (.str cid) a (.str s)).store
        = store ++ [⟨env.freshId, cid, amountInCents q, s, isoDatePart env.nowISO⟩] ∧
    (createInvoice env store (.str cid) a (.str s)).outcome
        = .redirected "/dashboard/invoices" := by
  simp [createInvoice, safeParse_ok_valid cid a s q hq hpos hs, hins, hrev]

/-- C1 witness: the amended theorem instantiated on a concrete valid
input. -/
theorem createInvoice_valid_inserts_and_redirects_witness :
    (createInvoice envOK [] (.str "c1") (.str "25") (.str "pending")).store
        = [] ++ [⟨envOK.freshId, "c1", amountInCents 25, "pending", isoDatePart envOK.nowISO⟩] ∧
    (createInvoice envOK [] (.str "c1") (.str "25") (.str "pending")).outcome
        = .redirected "/dashboard/invoices" :=
  createInvoice_valid_inserts_and_redirects envOK [] "c1" (.str "25") "pending" 25
    numberOf_25 (by norm_num) (Or.inl rfl) rfl rfl

/-- C2 counterexample: on a valid input with a failing INSERT,
`createInvoice` returns the message "Database Error: Failed to Create
Invoice. " with a trailing space, not the exact string "Database Error:
Failed to Create Invoice." the claim requires character for character. -/
theorem createInvoice_db_message_cex :
    (createInvoice envInsErr [] (.str "c1") (.str "25") (.str "pending")).outcome
        = .ret none (some "Database Error: Failed to Create Invoice. ") ∧
    (createInvoice envInsErr [] (.str "c1") (.str "25") (.str "pending")).outcome
        ≠ .ret none (some "Database Error: Failed to Create Invoice.") := by
  have h : (createInvoice envInsErr [] (.str "c1") (.str "25") (.str "pending")).outcome
      = .ret none (some "Database Error: Failed to Create Invoice. ") := by
    simp [createInvoice,
      safeParse_ok_valid "c1" (.str "25") "pending" 25 numberOf_25 (by norm_num)
        (Or.inl rfl),
      envInsErr]
  refine ⟨h, ?_⟩
  rw [h]
  decide

/-- C2 (amended): for every input that passes validation, if the INSERT
fails then `createInvoice` returns exactly the object with message
"Database Error: Failed to Create Invoice. " (the fixed message of the
source, which carries a trailing space), performs no redirect and no cache
invalidation, and leaves the store unchanged. -/
theorem createInvoice_store_failure
    (env : Env) (store : List InvoiceRow) (cid : String) (a : FormValue) (s : String)
    (q : ℚ) (hq : numberOf a = JSNum.val q) (hpos : 0 < q)
    (hs : s = "pending" ∨ s = "paid") (hins : env.insertFails = true) :
    (createInvoice env store (.str cid) a (.str s)).outcome
        = .ret none (some "Database Error: Failed to Create Invoice. ") ∧
    (createInvoice env store (.str cid) a (.str s)).store = store ∧
    (∀ p, Event.redirectSignal p ∉ (createInvoice env store (.str cid) a (.str s)).events) ∧
    (∀ p, Event.revalidate p ∉ (createInvoice env store (.str cid) a (.str s)).events) := by
  simp [createInvoice, safeParse_ok_valid cid a s q hq hpos hs, hins]

/-- C2 witness: the amended theorem instantiated on a concrete valid input
with a failing INSERT. -/
theorem createInvoice_store_failure_witness :
    (createInvoice envInsErr [] (.str "c1") (.str "25") (.str "pending")).outcome
        = .ret none (some "Database Error: Failed to Create Invoice. ") ∧
    (createInvoice envInsErr [] (.str "c1") (.str "25") (.str "pending")).store = [] ∧
    (∀ p, Event.redirectSignal p ∉
        (createInvoice envInsErr [] (.str "c1") (.str "25") (.str "pending")).events) ∧
    (∀ p, Event.revalidate p ∉
        (createInvoice envInsErr [] (.str "c1") (.str "25") (.str "pending")).events) :=
  createInvoice_store_failure envInsErr [] "c1" (.str "25") "pending" 25
    numberOf_25 (by norm_num) (Or.inl rfl) rfl

/-- C3 counterexample: the validated amount 1/1000 (input "0.001") is
strictly positive, yet the value persisted by `createInvoice` is
1/1000 * 100 = 1/10, which is not an integer — so the persisted amount is
not always an integer number of cents. -/
theorem persisted_amount_not_integral_cex :
    (createInvoice envOK [] (.str "c1") (.str "0.001") (.str "pending")).store.map
        InvoiceRow.amount = [amountInCents (1/1000)] ∧
    ¬ ∃ n : ℤ, amountInCents (1/1000) = (n : ℚ) := by
  constructor
  · simp [createInvoice,
      safeParse_ok_valid "c1" (.str "0.001") "pending" (1/1000) numberOf_milli
        (by norm_num) (Or.inl rfl),
      envOK]
  · rintro ⟨n, hn⟩
    rw [amountInCents] at hn
    have h10 : (10 : ℚ) * n = 1 := by rw [← hn]; norm_num
    have h10i : (10 : ℤ) * n = 1 := by exact_mod_cast h10
    omega

/-- C3 (amended): for every validated amount q > 0, the value persisted by
`createInvoice` and `updateInvoice` is q * 100, which is strictly positive
(hence non-negative) but not in general an integer number of cents — every
row either was already in the store or carries this amount. -/
theorem persisted_amount_positive
    (env : Env) (store : List InvoiceRow) (cid : String) (a : FormValue) (s : String)
    (q : ℚ) (id : String)
    (hq : numberOf a = JSNum.val q) (hpos : 0 < q) (hs : s = "pending" ∨ s = "paid") :
    0 < amountInCents q ∧
    (∀ r ∈ (createInvoice env store (.str cid) a (.str s)).store,
        r ∈ store ∨ r.amount = amountInCents q) ∧
    (∀ r ∈ (updateInvoice env store id (.str cid) a (.str s)).store,
        r ∈ store ∨ r.amount = amountInCents q) := by
  refine ⟨?_, ?_, ?_⟩
  · rw [amountInCents]; positivity
  · intro r hr
    by_cases hins : env.insertFails
    · simp [createInvoice, safeParse_ok_valid cid a s q hq hpos hs, hins] at hr
      exact Or.inl hr
    · by_cases hrev : env.revalidateFails <;>
        · simp [createInvoice, safeParse_ok_valid cid a s q hq hpos hs, hins, hrev] at hr
          rcases hr with hr | hr
          · exact Or.inl hr
          · right; rw [hr]
  · intro r hr
    by_cases hupd : env.updateFails
    · simp [updateInvoice, UpdateInvoice.parse,
        safeParse_ok_valid cid a s q hq hpos hs, hupd] at hr
      exact Or.inl hr
    · by_cases hrev : env.revalidateFails <;>
        · simp [updateInvoice, UpdateInvoice.parse,
            safeParse_ok_valid cid a s q hq hpos hs, hupd, hrev, List.mem_map] at hr
          obtain ⟨x, hx, hxr⟩ := hr
          rw [← hxr, updateRow]
          by_cases hid : x.id = id
          · simp [hid]
          · simp [hid]
            exact Or.inl hx

/-- C3 witness: the amended theorem instantiated at the coerced amount 25,
whose persisted value 2500 is strictly positive. -/
theorem persisted_amount_positive_witness :
    0 < amountInCents 25 :=
  (persisted_amount_positive envOK [] "c1" (.str "25") "pending" 25 "i1"
    numberOf_25 (by norm_num) (Or.inl rfl)).1

/-- C4 counterexample: on the non-matching string status "draft" (with the
other two fields valid), `createInvoice` returns an `errors.status` list
holding only Zod's default invalid-enum-value message, which is not the
configured message "Please select an invoice status.". -/
theorem createInvoice_enum_message_cex :
    (createInvoice envOK [] (.str "c1") (.str "25") (.str "draft")).outcome
        = .ret (some ⟨[], [], [enumValueMsg "draft"]⟩)
            (some "Missing Fields. Failed to Create Invoice.") ∧
    statusMsg ∉ [enumValueMsg "draft"] := by
  constructor
  · have ha : validateAmount (.str "25") = .ok 25 := by
      simp [validateAmount, numberOf_25]
    have hst : validateStatus (.str "draft") = .error [enumValueMsg "draft"] := by
      simp [validateStatus]
    have hsp : CreateInvoice.safeParse (.str "c1") (.str "25") (.str "draft")
        = .error ⟨[], [], [enumValueMsg "draft"]⟩ := by
      rw [safeParse_error_of_status _ _ _ _ hst]
      simp [validateCustomerId, ha, errsOf]
    simp [createInvoice, hsp]
  · decide

/-- C4 (amended): for every input whose status field is not exactly
"pending" or "paid", `createInvoice` performs no store write and returns a
nonempty `errors.status` list; the list holds the configured message
"Please select an invoice status." when the field is missing (a type
error), and Zod's default invalid-enum-value message when the field is a
non-matching string. -/
theorem createInvoice_invalid_status
    (env : Env) (store : List InvoiceRow) (cv a st : FormValue)
    (h : ∀ s, st = FormValue.str s → ¬(s = "pending" ∨ s = "paid")) :
    ∃ fe : FieldErrors,
      (createInvoice env store cv a st).outcome
          = .ret (some fe) (some "Missing Fields. Failed to Create Invoice.") ∧
      (createInvoice env store cv a st).store = store ∧
      (createInvoice env store cv a st).events = [] ∧
      fe.status ≠ [] ∧
      (st = .null → fe.status = [statusMsg]) ∧
      (∀ s, st = .str s → fe.status = [enumValueMsg s]) := by
  rcases st with s | _
  · have hns : ¬(s = "pending" ∨ s = "paid") := h s rfl
    have hst : validateStatus (.str s) = .error [enumValueMsg s] := by
      simp [validateStatus, hns]
    refine ⟨⟨errsOf (validateCustomerId cv), errsOf (validateAmount a), [enumValueMsg s]⟩,
      ?_, ?_, ?_, ?_, ?_, ?_⟩ <;>
      simp [createInvoice, safeParse_error_of_status cv a _ _ hst]
  · have hst : validateStatus .null = .error [statusMsg] := rfl
    refine ⟨⟨errsOf (validateCustomerId cv), errsOf (validateAmount a), [statusMsg]⟩,
      ?_, ?_, ?_, ?_, ?_, ?_⟩ <;>
      simp [createInvoice, safeParse_error_of_status cv a _ _ hst]

/-- C4 witness: the amended theorem instantiated on the non-matching string
status "draft". -/
theorem createInvoice_invalid_status_witness :
    ∃ fe : FieldErrors,
      (createInvoice envOK [] (.str "c1") (.str "25") (.str "draft")).outcome
          = .ret (some fe) (some "Missing Fields. Failed to Create Invoice.") ∧
      (createInvoice envOK [] (.str "c1") (.str "25") (.str "draft")).store = [] ∧
      fe.status = [enumValueMsg "draft"] := by
  obtain ⟨fe, h1, h2, -, -, -, h6⟩ :=
    createInvoice_invalid_status envOK [] (.str "c1") (.str "25") (.str "draft")
      (by intro s hs; injection hs with h2; rw [← h2]; decide)
  exact ⟨fe, h1, h2, h6 "draft" rfl⟩

/-- C5: for every input whose amount coerces to a number less than or
equal to 0, `createInvoice` returns a result whose `errors.amount` list
contains "Please enter an amount greater than $0." together with the
top-level message "Missing Fields. Failed to Create Invoice.", touches
neither the store nor any external collaborator, and does not redirect. -/
theorem createInvoice_nonpositive_amount
    (env : Env) (store : List InvoiceRow) (cv st : FormValue) (a : FormValue) (q : ℚ)
    (hq : numberOf a = JSNum.val q) (hle : q ≤ 0) :
    ∃ fe : FieldErrors,
      (createInvoice env store cv a st).outcome
          = .ret (some fe) (some "Missing Fields. Failed to Create Invoice.") ∧
      amountGtMsg ∈ fe.amount ∧
      (createInvoice env store cv a st).store = store ∧
      (createInvoice env store cv a st).events = [] := by
  have hnlt : ¬(0 < q) := not_lt.mpr hle
  have ha : validateAmount a = .error [amountGtMsg] := by
    simp [validateAmount, hq, hnlt]
  refine ⟨⟨errsOf (validateCustomerId cv), [amountGtMsg], errsOf (validateStatus st)⟩,
    ?_, ?_, ?_, ?_⟩ <;>
    simp [createInvoice, safeParse_error_of_amount cv a st _ ha]

/-- C5 witness: a form amount of "0" coerces to 0 ≤ 0 and is rejected with
the configured message, with no store write. -/
theorem createInvoice_nonpositive_amount_witness :
    ∃ fe : FieldErrors,
      (createInvoice envOK [] (.str "c1") (.str "0") (.str "pending")).outcome
          = .ret (some fe) (some "Missing Fields. Failed to Create Invoice.") ∧
      amountGtMsg ∈ fe.amount ∧
      (createInvoice envOK [] (.str "c1") (.str "0") (.str "pending")).store = [] := by
  obtain ⟨fe, h1, h2, h3, -⟩ :=
    createInvoice_nonpositive_amount envOK [] (.str "c1") (.str "pending") (.str "0") 0
      numberOf_zero le_rfl
  exact ⟨fe, h1, h2, h3⟩

/-- C6: for every input where customerId is absent (`formData.get` returned
null), `createInvoice` returns an `errors.customerId` list containing
"Please select a customer." and performs zero store writes; and the same
returned mapping simultaneously carries the messages of every other field
that failed its validator. -/
theorem createInvoice_missing_customerId
    (env : Env) (store : List InvoiceRow) (a st : FormValue) :
    ∃ fe : FieldErrors,
      (createInvoice env store .null a st).outcome
          = .ret (some fe) (some "Missing Fields. Failed to Create Invoice.") ∧
      customerIdMsg ∈ fe.customerId ∧
      (createInvoice env store .null a st).store = store ∧
      (createInvoice env store .null a st).events = [] ∧
      (∀ msgs, validateAmount a = .error msgs → fe.amount = msgs ∧ msgs ≠ []) ∧
      (∀ msgs, validateStatus st = .error msgs → fe.status = msgs ∧ msgs ≠ []) := by
  have hc : validateCustomerId .null = .error [customerIdMsg] := rfl
  refine ⟨⟨[customerIdMsg], errsOf (validateAmount a), errsOf (validateStatus st)⟩,
    ?_, ?_, ?_, ?_, ?_, ?_⟩
  · simp [createInvoice, safeParse_error_of_customerId .null a st _ hc]
  · simp
  · simp [createInvoice, safeParse_error_of_customerId .null a st _ hc]
  · simp [createInvoice, safeParse_error_of_customerId .null a st _ hc]
  · intro msgs hm
    exact ⟨by simp [hm, errsOf], validateAmount_error_ne_nil a msgs hm⟩
  · intro msgs hm
    exact ⟨by simp [hm, errsOf], validateStatus_error_ne_nil st msgs hm⟩

/-- C6 witness: with customerId missing, amount "0" and status "draft", the
returned mapping carries all three field errors simultaneously. -/
theorem createInvoice_missing_customerId_witness :
    ∃ fe : FieldErrors,
      (createInvoice envOK [] .null (.str "0") (.str "draft")).outcome
          = .ret (some fe) (some "Missing Fields. Failed to Create Invoice.") ∧
      customerIdMsg ∈ fe.customerId ∧
      fe.amount = [amountGtMsg] ∧
      fe.status = [enumValueMsg "draft"] := by
  obtain ⟨fe, h1, h2, -, -, h5, h6⟩ :=
    createInvoice_missing_customerId envOK [] (.str "0") (.str "draft")
  have ha : validateAmount (.str "0") = .error [amountGtMsg] := by
    simp [validateAmount, numberOf_zero]
  have hst : validateStatus (.str "draft") = .error [enumValueMsg "draft"] := by
    simp [validateStatus]
  exact ⟨fe, h1, h2, (h5 _ ha).1, (h6 _ hst).1⟩

/-- A concrete stored row used by witnesses. -/
def rowA : InvoiceRow := ⟨"i1", "c0", 500, "pending", "2024-01-01"⟩

/-- A second concrete stored row used by witnesses. -/
def rowB : InvoiceRow := ⟨"i2", "c9", 300, "paid", "2024-02-02"⟩

/-- C7: for every id and valid form input (with working collaborators),
`updateInvoice` maps the store through a per-row update that rewrites
customer_id, amount (as amount * 100) and status on exactly the rows whose
id matches, leaves every row's date and every other row unchanged, and then
redirects; for every invalid form input it throws the validation error,
performing no store write, no external call and no redirect. -/
theorem updateInvoice_frame
    (env : Env) (store : List InvoiceRow) (id cid s : String) (a : FormValue) (q : ℚ)
    (hq : numberOf a = JSNum.val q) (hpos : 0 < q) (hs : s = "pending" ∨ s = "paid")
    (hupd : env.updateFails = false) (hrev : env.revalidateFails = false) :
    ((updateInvoice env store id (.str cid) a (.str s)).outcome
        = .redirected "/dashboard/invoices" ∧
      (updateInvoice env store id (.str cid) a (.str s)).store
        = store.map (updateRow id cid (amountInCents q) s) ∧
      (∀ r : InvoiceRow, r.id ≠ id → updateRow id cid (amountInCents q) s r = r) ∧
      (∀ r : InvoiceRow, r.id = id →
        updateRow id cid (amountInCents q) s r = ⟨r.id, cid, amountInCents q, s, r.date⟩) ∧
      (∀ r : InvoiceRow, (updateRow id cid (amountInCents q) s r).date = r.date)) ∧
    (∀ cv' a' st' : FormValue, ∀ fe : FieldErrors,
      UpdateInvoice.parse cv' a' st' = .error fe →
        (updateInvoice env store id cv' a' st').outcome = .threw ∧
        (updateInvoice env store id cv' a' st').store = store ∧
        (updateInvoice env store id cv' a' st').events = []) := by
  constructor
  · refine ⟨?_, ?_, ?_, ?_, ?_⟩
    · simp [updateInvoice, UpdateInvoice.parse,
        safeParse_ok_valid cid a s q hq hpos hs, hupd, hrev]
    · simp [updateInvoice, UpdateInvoice.parse,
        safeParse_ok_valid cid a s q hq hpos hs, hupd, hrev]
    · intro r hr; simp [updateRow, hr]
    · intro r hr; simp [updateRow, hr]
    · intro r; rw [updateRow]; split <;> rfl
  · intro cv' a' st' fe hfe
    refine ⟨?_, ?_, ?_⟩ <;> simp [updateInvoice, hfe]

/-- C7 witness: on a two-row store, updating id "i1" with valid data
rewrites only that row, keeps its date, and redirects; the same call on an
invalid amount throws and leaves the store unchanged. -/
theorem updateInvoice_frame_witness :
    (updateInvoice envOK [rowA, rowB] "i1" (.str "c2") (.str "7") (.str "paid")).store
        = [⟨"i1", "c2", amountInCents 7, "paid", "2024-01-01"⟩, rowB] ∧
    (updateInvoice envOK [rowA, rowB] "i1" (.str "c2") (.str "7") (.str "paid")).outcome
        = .redirected "/dashboard/invoices" ∧
    (updateInvoice envOK [rowA, rowB] "i1" (.str "c2") (.str "0") (.str "paid")).outcome
        = .threw ∧
    (updateInvoice envOK [rowA, rowB] "i1" (.str "c2") (.str "0") (.str "paid")).store
        = [rowA, rowB] := by
  obtain ⟨⟨h1, h2, -, -, -⟩, hinv⟩ :=
    updateInvoice_frame envOK [rowA, rowB] "i1" "c2" "paid" (.str "7") 7
      numberOf_7 (by norm_num) (Or.inr rfl) rfl rfl
  have ha : validateAmount (.str "0") = .error [amountGtMsg] := by
    simp [validateAmount, numberOf_zero]
  have hfe : UpdateInvoice.parse (.str "c2") (.str "0") (.str "paid")
      = .error ⟨[], [amountGtMsg], []⟩ := by
    rw [UpdateInvoice.parse, safeParse_error_of_amount _ _ _ _ ha]
    simp [validateCustomerId, validateStatus, errsOf]
  obtain ⟨h5, h6, -⟩ := hinv (.str "c2") (.str "0") (.str "paid") _ hfe
  refine ⟨?_, h1, h5, h6⟩
  rw [h2]
  simp [rowA, rowB, updateRow]

/-- C8: for every id, when the DELETE and the revalidation succeed,
`deleteInvoice` invalidates the /dashboard/invoices route and returns
message "Deleted Invoice." without ever raising the redirect signal; when
the DELETE fails it returns message "Database Error: Failed to Delete
Invoice.". -/
theorem deleteInvoice_success_and_failure
    (env : Env) (store : List InvoiceRow) (id : String) :
    (env.deleteFails = false → env.revalidateFails = false →
      (deleteInvoice env store id).outcome = .ret none (some "Deleted Invoice.") ∧
      Event.revalidate "/dashboard/invoices" ∈ (deleteInvoice env store id).events ∧
      (∀ p, Event.redirectSignal p ∉ (deleteInvoice env store id).events)) ∧
    (env.deleteFails = true →
      (deleteInvoice env store id).outcome
          = .ret none (some "Database Error: Failed to Delete Invoice.")) := by
  constructor
  · intro h1 h2
    refine ⟨?_, ?_, ?_⟩ <;> simp [deleteInvoice, h1, h2]
  · intro h1
    simp [deleteInvoice, h1]

/-- C8 witness: the theorem instantiated on a working environment and on
one whose DELETE fails. -/
theorem deleteInvoice_success_and_failure_witness :
    (deleteInvoice envOK [rowA] "i1").outcome = .ret none (some "Deleted Invoice.") ∧
    (deleteInvoice envDelErr [rowA] "i1").outcome
        = .ret none (some "Database Error: Failed to Delete Invoice.") :=
  ⟨((deleteInvoice_success_and_failure envOK [rowA] "i1").1 rfl rfl).1,
    (deleteInvoice_success_and_failure envDelErr [rowA] "i1").2 rfl⟩

/-- C9: in every execution of `createInvoice` and `updateInvoice`, a
redirect signal in the event trace occurs strictly after a successful store
write, and whenever the store write fails no redirect signal occurs at all
and the outcome is the returned database-error object — the redirect is
never raised inside the failure-catching scope, so it is never intercepted
and reported as a store failure. -/
theorem redirect_only_after_commit
    (env : Env) (store : List InvoiceRow) (cv a st : FormValue) (id : String) :
    (∀ p, Event.redirectSignal p ∈ (createInvoice env store cv a st).events →
      ∃ pre post, (createInvoice env store cv a st).events
          = pre ++ Event.dbWriteSuccess :: post ∧ Event.redirectSignal p ∈ post) ∧
    (Event.dbWriteFailure ∈ (createInvoice env store cv a st).events →
      (∀ p, Event.redirectSignal p ∉ (createInvoice env store cv a st).events) ∧
      (createInvoice env store cv a st).outcome
          = .ret none (some "Database Error: Failed to Create Invoice. ")) ∧
    (∀ p, Event.redirectSignal p ∈ (updateInvoice env store id cv a st).events →
      ∃ pre post, (updateInvoice env store id cv a st).events
          = pre ++ Event.dbWriteSuccess :: post ∧ Event.redirectSignal p ∈ post) ∧
    (Event.dbWriteFailure ∈ (updateInvoice env store id cv a st).events →
      (∀ p, Event.redirectSignal p ∉ (updateInvoice env store id cv a st).events) ∧
      (updateInvoice env store id cv a st).outcome
          = .ret none (some "Database Error: Failed to Update Invoice.")) := by
  refine ⟨?_, ?_, ?_, ?_⟩
  · intro p hp
    cases hsp : CreateInvoice.safeParse cv a st with
    | error fe => simp [createInvoice, hsp] at hp
    | ok d =>
        by_cases hins : env.insertFails
        · simp [createInvoice, hsp, hins] at hp
        · by_cases hrev : env.revalidateFails
          · simp [createInvoice, hsp, hins, hrev] at hp
          · simp only [createInvoice, hsp, hins, hrev] at hp ⊢
            simp at hp
            refine ⟨[Event.dbWriteAttempt],
              [Event.revalidate "/dashboard/invoices",
                Event.redirectSignal "/dashboard/invoices"], by simp, by simp [hp]⟩
  · intro hf
    cases hsp : CreateInvoice.safeParse cv a st with
    | error fe => simp [createInvoice, hsp] at hf
    | ok d =>
        by_cases hins : env.insertFails
        · constructor
          · intro p
            simp [createInvoice, hsp, hins]
          · simp [createInvoice, hsp, hins]
        · by_cases hrev : env.revalidateFails <;>
            simp [createInvoice, hsp, hins, hrev] at hf
  · intro p hp
    cases hsp : CreateInvoice.safeParse cv a st with
    | error fe => simp [updateInvoice, UpdateInvoice.parse, hsp] at hp
    | ok d =>
        by_cases hupd : env.updateFails
        · simp [updateInvoice, UpdateInvoice.parse, hsp, hupd] at hp
        · by_cases hrev : env.revalidateFails
          · simp [updateInvoice, UpdateInvoice.parse, hsp, hupd, hrev] at hp
          · simp only [updateInvoice, UpdateInvoice.parse, hsp, hupd, hrev] at hp ⊢
            simp at hp
            refine ⟨[Event.dbWriteAttempt],
              [Event.revalidate "/dashboard/invoices",
                Event.redirectSignal "/dashboard/invoices"], by simp, by simp [hp]⟩
  · intro hf
    cases hsp : CreateInvoice.safeParse cv a st with
    | error fe => simp [updateInvoice, UpdateInvoice.parse, hsp] at hf
    | ok d =>
        by_cases hupd : env.updateFails
        · constructor
          · intro p
            simp [updateInvoice, UpdateInvoice.parse, hsp, hupd]
          · simp [updateInvoice, UpdateInvoice.parse, hsp, hupd]
        · by_cases hrev : env.revalidateFails <;>
            simp [updateInvoice, UpdateInvoice.parse, hsp, hupd, hrev] at hf

/-- C9 witness: on a concrete valid input with working collaborators, the
redirect signal of `createInvoice` sits strictly after the successful
write in the trace. -/
theorem redirect_only_after_commit_witness :
    ∃ pre post, (createInvoice envOK [] (.str "c1") (.str "25") (.str "pending")).events
        = pre ++ Event.dbWriteSuccess :: post ∧
      Event.redirectSignal "/dashboard/invoices" ∈ post := by
  obtain ⟨h1, -, -, -⟩ :=
    redirect_only_after_commit envOK [] (.str "c1") (.str "25") (.str "pending") "i1"
  apply h1
  simp [createInvoice,
    safeParse_ok_valid "c1" (.str "25") "pending" 25 numberOf_25 (by norm_num)
      (Or.inl rfl),
    envOK]

/-- C10: for every id and every environment, `deleteInvoice` never throws:
it returns either message "Deleted Invoice." or message "Database Error:
Failed to Delete Invoice." (with no errors field), and a revalidation
failure after a successful delete is caught by the same handler and also
yields the database-error message. -/
theorem deleteInvoice_total (env : Env) (store : List InvoiceRow) (id : String) :
    (deleteInvoice env store id).outcome ≠ .threw ∧
    ((deleteInvoice env store id).outcome = .ret none (some "Deleted Invoice.") ∨
      (deleteInvoice env store id).outcome
          = .ret none (some "Database Error: Failed to Delete Invoice.")) ∧
    (env.deleteFails = false → env.revalidateFails = true →
      (deleteInvoice env store id).outcome
          = .ret none (some "Database Error: Failed to Delete Invoice.")) := by
  by_cases h1 : env.deleteFails <;> by_cases h2 : env.revalidateFails <;>
    refine ⟨?_, ?_, ?_⟩ <;> simp [deleteInvoice, h1, h2]

/-- C10 witness: with a working DELETE but a failing revalidation, the call
still returns the database-error message instead of throwing. -/
theorem deleteInvoice_total_witness :
    (deleteInvoice envRevErr [rowA] "i1").outcome ≠ .threw ∧
    (deleteInvoice envRevErr [rowA] "i1").outcome
        = .ret none (some "Database Error: Failed to Delete Invoice.") := by
  obtain ⟨h1, -, h3⟩ := deleteInvoice_total envRevErr [rowA] "i1"
  exact ⟨h1, h3 rfl rfl⟩

end Invoices
